import Mathlib

/-!
Verification development for the serverless-event-orchestrator repository.

The TypeScript sources are shallowly embedded as executable Lean definitions:
dynamic (untyped) JavaScript values are modelled by the inductive `JsVal`,
JavaScript truthiness by `jsTruthy`, the `||` and `??` operators by `jsOr` and
`jsCoalesce`, thrown values by `Except`, and the ambient `process.env` /
`JSON.parse` / `Buffer` runtime facilities by explicit parameters (`Env`,
`JsRuntime`).  Asynchronous functions are embedded by their settled values:
`await f(x)` becomes function application, a rejected promise becomes
`Except.error`.
-/

namespace SEO

/-- A JSON-like model of dynamic JavaScript values.  `none : Option JsVal`
plays the role of `undefined`; `JsVal.null` is the JavaScript `null`. -/
inductive JsVal where
  | null
  | bool (b : Bool)
  | num (n : Int)
  | str (s : String)
  | arr (elems : List JsVal)
  | obj (fields : List (String × JsVal))
deriving Repr

/-- First-occurrence association lookup; JavaScript object keys are unique,
so first-wins and last-wins coincide for object field access. -/
def jsLookup {α : Type} : List (String × α) → String → Option α
  | [], _ => none
  | (k, v) :: rest, key => if k = key then some v else jsLookup rest key

/-- Property access `v[k]` on a dynamic value: objects yield the field,
every other value (including arrays indexed by a non-numeric key) yields
`undefined`. -/
def jsField (v : JsVal) (k : String) : Option JsVal :=
  match v with
  | .obj fields => jsLookup fields k
  | _ => none

/-- JavaScript truthiness of a defined value. -/
def jsTruthy : JsVal → Bool
  | .null => false
  | .bool b => b
  | .num n => n != 0
  | .str s => s != ""
  | .arr _ => true
  | .obj _ => true

/-- Truthiness of a possibly-`undefined` value. -/
def truthy (v : Option JsVal) : Bool :=
  match v with
  | some x => jsTruthy x
  | none => false

/-- JavaScript `a || b`. -/
def jsOr (a b : Option JsVal) : Option JsVal :=
  if truthy a then a else b

/-- JavaScript `a ?? b` (nullish coalescing: `undefined` and `null` fall
through, every other value is kept). -/
def jsCoalesce (a b : Option JsVal) : Option JsVal :=
  match a with
  | none => b
  | some .null => b
  | some v => some v

/-- Truthiness of a possibly-absent string (`undefined`, `null` and `""` are
falsy for string-typed fields). -/
def strTruthy (v : Option String) : Bool :=
  match v with
  | some s => s != ""
  | none => false

/-- JavaScript `a || b` on string-typed values. -/
def jsOrStr (a b : Option String) : Option String :=
  if strTruthy a then a else b

/-! ### Executable string primitives

The JavaScript string methods used by the sources (`toLowerCase`,
`toUpperCase`, `split`, `trim`, `startsWith`, `endsWith`, slicing) are
embedded as structurally recursive functions over the character list of
a `String`, so that every definition evaluates inside the kernel. -/

/-- ASCII lower-casing of one character (`toLowerCase` on the ASCII
method and header names the sources lower-case). -/
def charToLower (c : Char) : Char :=
  if 'A' ≤ c ∧ c ≤ 'Z' then Char.ofNat (c.toNat + 32) else c

/-- ASCII upper-casing of one character. -/
def charToUpper (c : Char) : Char :=
  if 'a' ≤ c ∧ c ≤ 'z' then Char.ofNat (c.toNat - 32) else c

/-- `s.toLowerCase()`. -/
def sToLower (s : String) : String := String.mk (s.data.map charToLower)

/-- `s.toUpperCase()`. -/
def sToUpper (s : String) : String := String.mk (s.data.map charToUpper)

/-- Split a character list on a separator character; the result is
always non-empty. -/
def splitChars (sep : Char) : List Char → List (List Char)
  | [] => [[]]
  | c :: cs =>
    match splitChars sep cs with
    | [] => [[]]
    | hd :: tl => if c = sep then [] :: hd :: tl else (c :: hd) :: tl

/-- `s.split(sep)` for a one-character separator (every split in the
sources uses a one-character separator). -/
def sSplitOnChar (sep : Char) (s : String) : List String :=
  (splitChars sep s.data).map String.mk

/-- `s.trim()`. -/
def sTrim (s : String) : String :=
  String.mk (((s.data.dropWhile Char.isWhitespace).reverse.dropWhile Char.isWhitespace).reverse)

/-- Whether `pre` is a prefix of `l`. -/
def listStartsWith : List Char → List Char → Bool
  | [], _ => true
  | _ :: _, [] => false
  | p :: ps, c :: cs => p = c && listStartsWith ps cs

/-- `s.startsWith(pre)`. -/
def sStartsWith (s pre : String) : Bool := listStartsWith pre.data s.data

/-- `s.endsWith(suf)`. -/
def sEndsWith (s suf : String) : Bool := listStartsWith suf.data.reverse s.data.reverse

/-- Drop the first `n` characters of `s` (`s.slice(n)`). -/
def strDrop (n : Nat) (s : String) : String := String.mk (s.data.drop n)

/-- Drop the last character of `s`. -/
def strDropLast (s : String) : String := String.mk s.data.dropLast

/-- The character count of `s`. -/
def strLen (s : String) : Nat := s.data.length

/-- `v && typeof v = "object"`: the guard used by the claims extractor
(`null` is excluded by the truthiness conjunct, arrays count as objects). -/
def truthyObject (v : Option JsVal) : Bool :=
  match v with
  | some (.obj _) => true
  | some (.arr _) => true
  | _ => false

/-- The external JavaScript runtime facilities used by the sources:
`JSON.parse` (returning `none` where the real function throws a
`SyntaxError`) and base64 decoding via `Buffer.from(_, "base64")`
(total: Node decodes leniently and never throws). -/
structure JsRuntime where
  jsonParse : String → Option JsVal
  b64decode : String → String

/-! ## src/http/body-parser.ts -/

/-- `parseJsonBody` from `src/http/body-parser.ts`.  The `try`/`catch`
around decode-and-parse is embedded by the `none` branch of
`rt.jsonParse`; `Buffer.from` is total, so the catch can only be reached
by a parse failure.  `JSON.parse` returning `null` is normalized to the
empty object by `parsed ?? {}`. -/
def parseJsonBody (rt : JsRuntime) (body : Option String) (isBase64Encoded : Option Bool) : JsVal :=
  match body with
  | none => .obj []
  | some s =>
    if s = "" then .obj []
    else
      let decodedBody := if isBase64Encoded.getD false then rt.b64decode s else s
      match rt.jsonParse decodedBody with
      | none => .obj []
      | some .null => .obj []
      | some v => v

/-- `parseQueryParams` from `src/http/body-parser.ts`: entries whose value
is `undefined` are dropped, the rest are kept. -/
def parseQueryParams (params : Option (List (String × Option String))) : List (String × String) :=
  match params with
  | none => []
  | some l => l.filterMap (fun kv => kv.2.map (fun v => (kv.1, v)))

/-! ## src/utils/headers.ts (file absent from src/) -/

/-- Modelled from the spec: `src/utils/headers.ts` is not under `src/`
(only its tests and callers are).  Per the spec, header normalization is
raw header case-normalization: every key is lowercased; an absent header
object normalizes to the empty mapping. -/
def normalizeHeaders (headers : Option (List (String × String))) : List (String × String) :=
  match headers with
  | none => []
  | some l => l.map (fun kv => (sToLower kv.1, kv.2))

/-! ## src/utils/path-matcher.ts (file absent from src/) -/

/-- Modelled from the spec: `src/utils/path-matcher.ts` is not under
`src/` (only its tests and callers are).  Spec 4.1: normalization enforces
a leading slash and strips a trailing slash except for the root `/`. -/
def normalizePath (p : String) : String :=
  let p1 := if sStartsWith p "/" then p else "/" ++ p
  if p1 != "/" && sEndsWith p1 "/" then strDropLast p1 else p1

/-- A pattern segment of the form `\x7bname\x7d` (a path parameter). -/
def isParamSeg (s : String) : Bool :=
  sStartsWith s "\x7b" && sEndsWith s "\x7d" && strLen s ≥ 2

/-- The declared name of a parameter segment. -/
def paramName (s : String) : String :=
  strDropLast (strDrop 1 s)

/-- Modelled from the spec: the path segments of a normalized path or
pattern (the normalized string always starts with `/`, so the empty
leading chunk is dropped). -/
def pathSegs (s : String) : List String :=
  (sSplitOnChar '/' (normalizePath s)).drop 1

/-- Modelled from the spec: segment-wise matching.  A parameter segment
captures one-or-more characters excluding the separator (splitting
already excludes the separator, so only emptiness is checked); a literal
segment matches verbatim; the match is fully anchored (both lists must be
exhausted together). -/
def matchSegs : List String → List String → Option (List (String × String))
  | [], [] => some []
  | p :: ps, a :: rest =>
    if isParamSeg p then
      if a = "" then none
      else (matchSegs ps rest).map (fun l => (paramName p, a) :: l)
    else if p = a then matchSegs ps rest
    else none
  | _, _ => none

/-- Modelled from the spec: `matchPath(pattern, path)` normalizes both
sides, then matches segment-wise, returning the captured parameters
zipped to declared names in declaration order, or `none`. -/
def matchPath (pattern path : String) : Option (List (String × String)) :=
  matchSegs (pathSegs pattern) (pathSegs path)

/-- Modelled from the spec: whether a pattern declares any `\x7bname\x7d`
parameter segment. -/
def hasPathParameters (pattern : String) : Bool :=
  (pathSegs pattern).any isParamSeg

/-! ## src/types/event-type.enum.ts -/

/-- `EventType` from `src/types/event-type.enum.ts`. -/
inductive EventType where
  | eventbridge
  | apigateway
  | lambda
  | sqs
  | unknown
deriving DecidableEq, Repr

/-- `RouteSegment` from `src/types/event-type.enum.ts`. -/
inductive RouteSegment where
  | public
  | «private»
  | backoffice
  | internal
deriving DecidableEq, Repr

/-! ## src/http/response.ts -/

/-- The body of an HTTP response: either the JSON serialization of the
`StandardResponse` structure `\x7bstatus, code, data?, message?\x7d` built by
`createStandardResponse`, or a plain string (preflight and the non-HTTP
404 objects). -/
inductive RespBody where
  | jsonB (status : Int) (code : String) (data : Option String) (message : Option String)
  | strB (s : String)
deriving DecidableEq, Repr

/-- `HttpResponse` from `src/http/response.ts` (`headers` is a JavaScript
object: later entries of the list override earlier ones on a shared key,
an absent `headers` field is represented by `[]`). -/
structure Resp where
  statusCode : Int
  body : RespBody
  headers : List (String × String) := []
deriving DecidableEq, Repr

/-- `getDefaultCodeForStatus` from `src/http/response.ts`. -/
def getDefaultCodeForStatus (status : Int) : String :=
  if status = 200 then "SUCCESS"
  else if status = 201 then "CREATED"
  else if status = 400 then "BAD_REQUEST"
  else if status = 401 then "UNAUTHORIZED"
  else if status = 403 then "FORBIDDEN"
  else if status = 404 then "NOT_FOUND"
  else if status = 409 then "CONFLICT"
  else if status = 422 then "VALIDATION_ERROR"
  else "INTERNAL_ERROR"

/-- `createStandardResponse` from `src/http/response.ts`.  The source
spreads `...(message && \x7bmessage\x7d)`, so an empty-string message is
dropped from the body like an absent one. -/
def createStandardResponse (statusCode : Int) (data : Option String) (code : Option String)
    (message : Option String) (headers : List (String × String)) : Resp :=
  let responseCode := code.getD (getDefaultCodeForStatus statusCode)
  let message' := match message with
    | some "" => none
    | m => m
  { statusCode := statusCode,
    body := .jsonB statusCode responseCode data message',
    headers := ("Content-Type", "application/json") :: headers }

/-- `forbiddenResponse` from `src/http/response.ts`. -/
def forbiddenResponse (message : Option String) (code : Option String)
    (headers : List (String × String) := []) : Resp :=
  createStandardResponse 403 none (some (code.getD "FORBIDDEN")) message headers

/-- `notFoundResponse` from `src/http/response.ts`. -/
def notFoundResponse (message : Option String) (code : Option String)
    (headers : List (String × String) := []) : Resp :=
  createStandardResponse 404 none (some (code.getD "NOT_FOUND")) message headers

/-- `badRequestResponse` from `src/http/response.ts`. -/
def badRequestResponse (message : Option String) (code : Option String)
    (headers : List (String × String) := []) : Resp :=
  createStandardResponse 400 none (some (code.getD "BAD_REQUEST")) message headers

/-- The discriminator code carried in a standard response body. -/
def bodyCode (r : Resp) : Option String :=
  match r.body with
  | .jsonB _ code _ _ => some code
  | .strB _ => none

/-! ## src/identity/extractor.ts -/

/-- `IdentityContext` from `src/types/routes.ts`.  `userId` and `email`
keep the dynamic claim value they were assigned from; `issuer` is kept at
its declared type `string | undefined` (a non-string `iss` claim falls
outside the declared interface and is modelled as absent); `groups` keeps
its declared type `string[] | undefined`. -/
structure IdentityContext where
  userId : Option JsVal := none
  email : Option JsVal := none
  groups : Option (List String) := none
  issuer : Option String := none
  claims : JsVal := .obj []

/-- The identity-like keys probed by `hasIdentityProperties`. -/
def identityKeys : List String :=
  ["sub", "userId", "user_id", "email", "cognito:username", "iss", "aud"]

/-- `hasIdentityProperties` from `src/identity/extractor.ts`: the value is
a truthy object and has at least one recognized identity key (`in`
operator: key presence, regardless of the value). -/
def hasIdentityProperties (v : JsVal) : Bool :=
  match v with
  | .obj fields => identityKeys.any (fun k => (jsLookup fields k).isSome)
  | _ => false

/-- `extractClaims` from `src/identity/extractor.ts`: the four recognized
authorizer shapes, probed in fixed order. -/
def extractClaims (authorizer : Option JsVal) : Option JsVal :=
  match authorizer with
  | none => none
  | some a =>
    if !(jsTruthy a) then none
    else
      let c1 := jsField a "claims"
      if truthyObject c1 then c1
      else
        let c2 := ((jsField a "jwt").bind (fun j => jsField j "claims"))
        if truthyObject c2 then c2
        else
          let c3 := jsField a "lambda"
          if truthyObject c3 then c3
          else if hasIdentityProperties a then some a
          else none

/-- `parseGroups` from `src/identity/extractor.ts`: a falsy value yields
`[]`; an array is returned as-is (its string elements — non-string
elements fall outside the declared `string[]` type); a string is split on
commas, trimmed, and cleared of empty entries.  A truthy value that is
neither array nor string falls outside the declared
`string | string[] | undefined` type and is out of the model. -/
def parseGroups (groups : Option JsVal) : List String :=
  match groups with
  | some (.arr l) => l.filterMap (fun x => match x with | .str s => some s | _ => none)
  | some (.str s) =>
    if s = "" then []
    else (((sSplitOnChar ',' s).map sTrim).filter (fun g => g ≠ ""))
  | _ => []

/-- `decodeJwtFromHeader` from `src/identity/extractor.ts`: strips an
optional `Bearer ` prefix, takes the middle dot-separated token segment,
base64url-normalizes it and parses it as JSON — no signature
verification.  The `try`/`catch` is embedded by the `none` branch of
`rt.jsonParse`. -/
def decodeJwtFromHeader (rt : JsRuntime) (authHeader : String) : Option JsVal :=
  let token := if sStartsWith authHeader "Bearer " then strDrop 7 authHeader else authHeader
  let parts := sSplitOnChar '.' token
  if parts.length ≠ 3 then none
  else
    match parts.get? 1 with
    | none => none
    | some payload =>
      let base64 := (payload.replace "-" "+").replace "_" "/"
      rt.jsonParse (rt.b64decode base64)

/-! ## Event model (the dynamic AWS event object) -/

/-- An SQS record as read by the dispatcher. -/
structure SqsRecord where
  eventSource : Option String := none
  eventSourceARN : Option String := none
  body : Option String := none
  messageId : Option String := none

/-- `event.requestContext` as read by the dispatcher and the identity
extractor. -/
structure RequestContext where
  authorizer : Option JsVal := none
  requestId : Option String := none

/-- The raw AWS event, restricted to the fields the sources read.  Every
field is optional: absence models `undefined` on the dynamic object. -/
structure Event where
  source : Option String := none
  requestContext : Option RequestContext := none
  httpMethod : Option String := none
  records : Option (List SqsRecord) := none
  awsRequestId : Option String := none
  resource : Option String := none
  path : Option String := none
  body : Option String := none
  isBase64Encoded : Option Bool := none
  pathParameters : Option (List (String × String)) := none
  queryStringParameters : Option (List (String × Option String)) := none
  headers : Option (List (String × String)) := none
  detail : Option JsVal := none
  id : Option String := none

/-- `extractIdentity` from `src/identity/extractor.ts`.  When no
authorizer claims are found and `autoExtract` is enabled, the
Authorization header is decoded without verification; the decoded value
is then subject to the same `if (!claims)` truthiness guard. -/
def extractIdentity (rt : JsRuntime) (event : Event) (autoExtract : Bool) : Option IdentityContext :=
  let authorizer := event.requestContext.bind (fun rc => rc.authorizer)
  let claims0 := extractClaims authorizer
  let claims1 :=
    if claims0.isNone && autoExtract then
      let authHeader := jsOrStr ((event.headers.getD []).lookup "authorization")
        ((event.headers.getD []).lookup "Authorization")
      match authHeader with
      | some h => if h ≠ "" then decodeJwtFromHeader rt h else none
      | none => none
    else claims0
  match claims1 with
  | none => none
  | some claims =>
    if !(jsTruthy claims) then none
    else some {
      userId := jsOr (jsOr (jsOr (jsField claims "sub") (jsField claims "cognito:username"))
        (jsField claims "userId")) (jsField claims "user_id"),
      email := jsField claims "email",
      groups := some (parseGroups (jsOr (jsField claims "cognito:groups") (jsField claims "groups"))),
      issuer := (match jsField claims "iss" with | some (.str s) => some s | _ => none),
      claims := claims }

/-- `extractUserPoolId` from `src/identity/extractor.ts`: the trailing
path segment of the issuer URL (`parts[parts.length - 1]`), `undefined`
on a falsy issuer. -/
def extractUserPoolId (issuer : Option String) : Option String :=
  match issuer with
  | none => none
  | some s => if s = "" then none else (sSplitOnChar '/' s).getLast?

/-- `validateIssuer` from `src/identity/extractor.ts`: `false` (never a
thrown error) when identity or issuer is absent or falsy, otherwise a
strict comparison of the trailing issuer segment with the expected pool
id. -/
def validateIssuer (identity : Option IdentityContext) (expectedUserPoolId : String) : Bool :=
  match identity with
  | none => false
  | some i =>
    if !(strTruthy i.issuer) then false
    else decide (extractUserPoolId i.issuer = some expectedUserPoolId)

/-- `hasAnyGroup` from `src/identity/extractor.ts`: `false` on an absent
identity or an absent/empty group list, otherwise `some`-membership. -/
def hasAnyGroup (identity : Option IdentityContext) (allowedGroups : List String) : Bool :=
  match identity with
  | none => false
  | some i =>
    match i.groups with
    | none => false
    | some gs =>
      if gs.length = 0 then false
      else allowedGroups.any (fun g => gs.contains g)

/-- `hasAllGroups` from `src/identity/extractor.ts`: `false` on an absent
identity or an absent/empty group list, otherwise `every`-membership. -/
def hasAllGroups (identity : Option IdentityContext) (requiredGroups : List String) : Bool :=
  match identity with
  | none => false
  | some i =>
    match i.groups with
    | none => false
    | some gs =>
      if gs.length = 0 then false
      else requiredGroups.all (fun g => gs.contains g)

/-! ## src/tenant/types.ts and src/tenant/helpers.ts -/

/-- `TenantInfo` from `src/tenant/types.ts` (the statically typed shape
used by guards and propagation). -/
structure TenantInfo where
  tenantId : String
  tenantType : String
  userId : String
  personProfileId : Option String := none
  orgProfileId : Option String := none
  countryCode : String
  plan : Option String := none
  hasCRM : Option Bool := none

/-- `isTenantType` from `src/tenant/types.ts` on a dynamic value. -/
def isTenantType (v : Option JsVal) : Bool :=
  match v with
  | some (.str s) => s = "ORG" || s = "PERSON"
  | _ => false

/-- `isPlan` from `src/tenant/types.ts` on a dynamic value. -/
def isPlan (v : Option JsVal) : Bool :=
  match v with
  | some (.str s) => s = "FREE" || s = "BASIC" || s = "PRO" || s = "ENTERPRISE"
  | _ => false

/-- `getClaim` from `src/tenant/helpers.ts`:
`claims[`custom:key`] ?? claims[key]` — the `custom:`-prefixed form wins
unless it is nullish. -/
def getClaim (claims : JsVal) (key : String) : Option JsVal :=
  jsCoalesce (jsField claims ("custom:" ++ key)) (jsField claims key)

/-- The dynamic-valued result of `tenantInfoFromClaims`: the source
assigns raw claim values (typed `any`) into the `TenantInfo` fields, so
the embedded result keeps them as `JsVal`. -/
structure TenantInfoV where
  tenantId : JsVal
  tenantType : JsVal
  userId : JsVal
  personProfileId : Option JsVal := none
  orgProfileId : Option JsVal := none
  countryCode : JsVal
  plan : Option JsVal := none
  hasCRM : Option JsVal := none

/-- `tenantInfoFromClaims` from `src/tenant/helpers.ts`: resolves each
logical field through `getClaim` (with a `sub` fallback for the user id),
fails to `undefined` when any required field is falsy or the tenant kind
is unrecognized. -/
def tenantInfoFromClaims (claims : JsVal) : Option TenantInfoV :=
  let tenantId := getClaim claims "tenantId"
  let tenantType := getClaim claims "tenantType"
  let userId := jsOr (getClaim claims "userId") (jsField claims "sub")
  let countryCode := getClaim claims "countryCode"
  let personProfileId := getClaim claims "personProfileId"
  let orgProfileId := getClaim claims "orgProfileId"
  let hasCRM := getClaim claims "hasCRM"
  if !(truthy tenantId) || !(truthy tenantType) || !(truthy userId) || !(truthy countryCode) then none
  else if !(isTenantType tenantType) then none
  else some {
    tenantId := tenantId.getD .null,
    tenantType := tenantType.getD .null,
    userId := userId.getD .null,
    personProfileId := personProfileId,
    orgProfileId := orgProfileId,
    countryCode := countryCode.getD .null,
    plan := if isPlan (getClaim claims "plan") then getClaim claims "plan" else none,
    hasCRM := hasCRM }

/-! ## src/types/routes.ts -/

/-- The `payload.body` of a normalized event: a dynamic JSON-like value,
or (for the direct-invocation trigger) the entire raw event. -/
inductive PayloadBody where
  | jsv (v : JsVal)
  | rawEvent

/-- `NormalizedEvent.payload` from `src/types/routes.ts`. -/
structure Payload where
  body : Option PayloadBody := none
  pathParameters : Option (List (String × String)) := none
  queryStringParameters : Option (List (String × String)) := none
  headers : Option (List (String × String)) := none

/-- `NormalizedEvent.context` from `src/types/routes.ts`. -/
structure EventContext where
  segment : RouteSegment
  identity : Option IdentityContext := none
  requestId : Option String := none
  tenantInfo : Option TenantInfo := none

/-- `NormalizedEvent` from `src/types/routes.ts`.  `params` is a
JavaScript object built by spreads: later entries of the list override
earlier ones on a shared key. -/
structure NormalizedEvent where
  eventRaw : Event
  eventType : String
  payload : Payload
  params : List (String × String)
  context : EventContext

/-- `MiddlewareFn` from `src/types/routes.ts`: resolves to the modified
event, to `undefined` (keep the current event), or rejects with a thrown
value (the guards throw response objects). -/
abbrev MiddlewareFn : Type :=
  NormalizedEvent → Except Resp (Option NormalizedEvent)

/-- A route handler: resolves to a response or rejects with a thrown
value. -/
abbrev Handler : Type :=
  NormalizedEvent → Except Resp Resp

/-- `RouteConfig` from `src/types/routes.ts`.  The `cors` and `rateLimit`
configuration fields are never read by any embedded operation and are
omitted. -/
structure RouteConfig where
  handler : Handler
  middleware : Option (List MiddlewareFn) := none

/-- The per-method route table: a JavaScript object mapping a path
pattern to its `RouteConfig`, in declaration order. -/
abbrev MethodRoutes : Type :=
  List (String × RouteConfig)

/-- `HttpRouter` from `src/types/routes.ts`: a JavaScript object mapping
an HTTP method to its route table. -/
abbrev HttpRouter : Type :=
  List (String × MethodRoutes)

/-- One segment slot of a segmented router: either a bare `HttpRouter` or
a `SegmentConfig` (an object with a `routes` key and optional
`middleware`); `isSegmentConfig` from `src/dispatcher.ts` distinguishes
the two by the presence of `routes`. -/
inductive SegmentEntry where
  | plain (routes : HttpRouter)
  | config (routes : HttpRouter) (middleware : Option (List MiddlewareFn))

/-- A segmented router (`SegmentedHttpRouter` / `AdvancedSegmentedRouter`
from `src/types/routes.ts`): each segment key optionally present. -/
abbrev SegmentedRouter : Type :=
  RouteSegment → Option SegmentEntry

/-- The `apigateway` routes value: the source discriminates a flat
`HttpRouter` from a segmented router at runtime with
`isSegmentedRouter` (presence of any segment key); the embedding carries
the discrimination in the type. -/
inductive ApiRoutes where
  | flat (router : HttpRouter)
  | segmented (router : SegmentedRouter)

/-- `DispatchRoutes` from `src/types/routes.ts`.  The `eventbridge`,
`lambda` and `sqs` tables map routing keys (including the `default` key)
to handlers. -/
structure DispatchRoutes where
  apigateway : Option ApiRoutes := none
  eventbridge : Option (List (String × Handler)) := none
  lambda : Option (List (String × Handler)) := none
  sqs : Option (List (String × Handler)) := none

/-- `RouteMatch` from `src/types/routes.ts`. -/
structure RouteMatch where
  handler : Handler
  params : List (String × String)
  segment : RouteSegment
  middleware : List MiddlewareFn
  config : RouteConfig

/-- `responses` overrides from `OrchestratorConfig`: each entry models
the value returned by the configured override thunk. -/
structure ResponsesConfig where
  notFound : Option Resp := none
  forbidden : Option Resp := none
  badRequest : Option (String → Resp) := none
  internalError : Option Resp := none

/-- `OrchestratorConfig` from `src/types/routes.ts`. -/
structure OrchestratorConfig where
  debug : Option Bool := none
  userPools : Option (RouteSegment → Option String) := none
  globalMiddleware : Option (List MiddlewareFn) := none
  responses : Option ResponsesConfig := none
  autoExtractIdentity : Option Bool := none

/-! ## src/middleware/tenant-guard.ts -/

/-- `CROSS_TENANT_ROLES` from `src/middleware/tenant-guard.ts`. -/
def CROSS_TENANT_ROLES : List String :=
  ["PLATFORM_ADMIN"]

/-- The response thrown by the tenant guard. -/
def tenantMissingResponse : Resp :=
  forbiddenResponse
    (some "Tenant context required. Ensure you are authenticated with a valid tenant.")
    (some "TENANT_CONTEXT_MISSING")

/-- `tenantGuard` from `src/middleware/tenant-guard.ts`: a bypass-role
identity returns the event immediately; otherwise a missing tenant, a
falsy tenant id, or a whitespace-only tenant id throws the
`TENANT_CONTEXT_MISSING` forbidden response. -/
def tenantGuard (event : NormalizedEvent) : Except Resp (Option NormalizedEvent) :=
  let tenantInfo := event.context.tenantInfo
  let identity := event.context.identity
  if hasAnyGroup identity CROSS_TENANT_ROLES then .ok (some event)
  else
    match tenantInfo with
    | none => .error tenantMissingResponse
    | some t =>
      if t.tenantId = "" || sTrim t.tenantId = "" then .error tenantMissingResponse
      else .ok (some event)

/-! ## src/dispatcher.ts -/

/-- The `process.env` CORS variables read by the dispatcher. -/
structure Env where
  corsAllowedOrigins : Option String := none
  corsAllowedHeaders : Option String := none
  corsAllowedMethods : Option String := none
  corsMaxAge : Option String := none

/-- `process.env.X || fallback` (an empty-string variable also falls back). -/
def envOr (v : Option String) (fallback : String) : String :=
  match v with
  | some s => if s = "" then fallback else s
  | none => fallback

/-- The default `Access-Control-Allow-Headers` literal from
`src/dispatcher.ts`. -/
def defaultCorsAllowedHeaders : String :=
  "Content-Type,Authorization,X-Amz-Date,X-Api-Key,X-Amz-Security-Token,appVersion,app-version,platform,geo,x-forwarded-for,x-real-ip"

/-- The default `Access-Control-Allow-Methods` literal from
`src/dispatcher.ts`. -/
def defaultCorsAllowedMethods : String :=
  "GET,POST,PUT,PATCH,DELETE,OPTIONS"

/-- `detectEventType` from `src/dispatcher.ts`: the fixed-priority
sequence of structural predicates. -/
def detectEventType (event : Event) : EventType :=
  if event.source = some "EVENT_BRIDGE" then .eventbridge
  else if event.requestContext.isSome && strTruthy event.httpMethod then .apigateway
  else if ((event.records.bind (fun rs => rs.head?)).bind (fun r => r.eventSource)) = some "aws:sqs" then .sqs
  else if strTruthy event.awsRequestId then .lambda
  else .unknown

/-- `getRouterFromSegment` from `src/dispatcher.ts`. -/
def getRouterFromSegment (segment : Option SegmentEntry) : Option HttpRouter :=
  match segment with
  | none => none
  | some (.config routes _) => some routes
  | some (.plain routes) => some routes

/-- `getMiddlewareFromSegment` from `src/dispatcher.ts`. -/
def getMiddlewareFromSegment (segment : Option SegmentEntry) : List MiddlewareFn :=
  match segment with
  | none => []
  | some (.config _ middleware) => middleware.getD []
  | some (.plain _) => []

/-- The fallback pattern loop of `findRouteInRouterWithActualPath`:
`Object.entries` in declaration order, first pattern whose `matchPath`
succeeds wins. -/
def firstPatternMatch : MethodRoutes → String → Option (RouteConfig × List (String × String))
  | [], _ => none
  | (pattern, config) :: rest, normalizedActualPath =>
    match matchPath pattern normalizedActualPath with
    | some params => some (config, params)
    | none => firstPatternMatch rest normalizedActualPath

/-- `findRouteInRouterWithActualPath` from `src/dispatcher.ts`: exact key
lookup of the normalized request pattern first, then the pattern loop
against the normalized actual path. -/
def findRouteInRouterWithActualPath (router : Option HttpRouter) (method : Option String)
    (routePattern actualPath : String) : Option (RouteConfig × List (String × String)) :=
  match router with
  | none => none
  | some r =>
    match (match method with | some m => jsLookup r m | none => none) with
    | none => none
    | some methodRoutes =>
      let normalizedPattern := normalizePath routePattern
      let normalizedActualPath := normalizePath actualPath
      match jsLookup methodRoutes normalizedPattern with
      | some config => some (config, (matchPath normalizedPattern normalizedActualPath).getD [])
      | none => firstPatternMatch methodRoutes normalizedActualPath

/-- The fixed segment precedence order probed by
`findRouteInSegmentsWithActualPath`. -/
def segmentsOrder : List RouteSegment :=
  [.public, .«private», .backoffice, .internal]

/-- The segment probe loop of `findRouteInSegmentsWithActualPath`. -/
def findRouteInSegmentsGo (router : SegmentedRouter) (method : Option String)
    (routePattern actualPath : String) : List RouteSegment → Option RouteMatch
  | [] => none
  | segment :: rest =>
    let segmentRouter := router segment
    let httpRouter := getRouterFromSegment segmentRouter
    match findRouteInRouterWithActualPath httpRouter method routePattern actualPath with
    | some result =>
      some { handler := result.1.handler, params := result.2, segment := segment,
             middleware := getMiddlewareFromSegment segmentRouter, config := result.1 }
    | none => findRouteInSegmentsGo router method routePattern actualPath rest

/-- `findRouteInSegmentsWithActualPath` from `src/dispatcher.ts`. -/
def findRouteInSegmentsWithActualPath (router : SegmentedRouter) (method : Option String)
    (routePattern actualPath : String) : Option RouteMatch :=
  findRouteInSegmentsGo router method routePattern actualPath segmentsOrder

/-- JavaScript object spread `\x7b...base, ...overlay\x7d` on string maps:
overlay entries come later and override base entries on a shared key
under last-occurrence-wins reading. -/
def spreadMerge (base : Option (List (String × String))) (overlay : List (String × String)) :
    List (String × String) :=
  base.getD [] ++ overlay

/-- `normalizeApiGatewayEvent` from `src/dispatcher.ts`. -/
def normalizeApiGatewayEvent (rt : JsRuntime) (event : Event) (segment : RouteSegment)
    (extractedParams : List (String × String)) (autoExtract : Bool) : NormalizedEvent :=
  let identity := extractIdentity rt event autoExtract
  let params := spreadMerge event.pathParameters extractedParams
  { eventRaw := event,
    eventType := "apigateway",
    payload := {
      body := some (.jsv (parseJsonBody rt event.body event.isBase64Encoded)),
      pathParameters := some params,
      queryStringParameters := some (parseQueryParams event.queryStringParameters),
      headers := some (normalizeHeaders event.headers) },
    params := params,
    context := {
      segment := segment,
      identity := identity,
      requestId := event.requestContext.bind (fun rc => rc.requestId) } }

/-- `normalizeEventBridgeEvent` from `src/dispatcher.ts`. -/
def normalizeEventBridgeEvent (event : Event) : NormalizedEvent :=
  { eventRaw := event,
    eventType := "eventbridge",
    payload := { body := event.detail.map .jsv },
    params := [],
    context := { segment := .internal, requestId := event.id } }

/-- `normalizeSqsEvent` from `src/dispatcher.ts`: the body of the first
record is JSON-parsed, a parse failure preserves the raw string under
`rawBody`.  The SQS detection predicate guarantees a first record; the
empty-records default is unreachable from `dispatchEvent`. -/
def normalizeSqsEvent (rt : JsRuntime) (event : Event) : NormalizedEvent :=
  let record := ((event.records.getD []).headD {})
  let body : JsVal :=
    match record.body with
    | some s =>
      (match rt.jsonParse s with
       | some v => v
       | none => .obj [("rawBody", .str s)])
    | none => .obj []
  { eventRaw := event,
    eventType := "sqs",
    payload := { body := some (.jsv body) },
    params := [],
    context := { segment := .internal, requestId := record.messageId } }

/-- `normalizeLambdaEvent` from `src/dispatcher.ts`: the entire payload
is the body. -/
def normalizeLambdaEvent (event : Event) : NormalizedEvent :=
  { eventRaw := event,
    eventType := "lambda",
    payload := { body := some .rawEvent },
    params := [],
    context := { segment := .internal } }

/-- `validateSegmentUserPool` from `src/dispatcher.ts`: public segments
and segments without a (truthy) configured pool id skip validation;
otherwise the issuer of the extracted identity is validated. -/
def validateSegmentUserPool (normalized : NormalizedEvent) (segment : RouteSegment)
    (config : OrchestratorConfig) : Bool :=
  if segment = .public then true
  else
    match config.userPools.bind (fun pools => pools segment) with
    | none => true
    | some expectedUserPoolId =>
      if expectedUserPoolId = "" then true
      else validateIssuer normalized.context.identity expectedUserPoolId

/-- `executeMiddleware` from `src/dispatcher.ts`: a strict left fold; a
falsy (void) middleware result keeps the current event; a thrown value
propagates. -/
def executeMiddleware (middleware : List MiddlewareFn) (event : NormalizedEvent) :
    Except Resp NormalizedEvent :=
  match middleware with
  | [] => .ok event
  | mw :: rest =>
    match mw event with
    | .error e => .error e
    | .ok result => executeMiddleware rest (result.getD event)

/-- `applyCorsToResponse` from `src/dispatcher.ts`: the three CORS
headers are spread first, then the existing headers, so handler-set
values win on a shared key. -/
def applyCorsToResponse (env : Env) (response : Resp) : Resp :=
  let corsOrigin := envOr env.corsAllowedOrigins "*"
  let corsHeaders := envOr env.corsAllowedHeaders defaultCorsAllowedHeaders
  let corsMethods := envOr env.corsAllowedMethods defaultCorsAllowedMethods
  { response with headers :=
      [("Access-Control-Allow-Origin", corsOrigin),
       ("Access-Control-Allow-Headers", corsHeaders),
       ("Access-Control-Allow-Methods", corsMethods)] ++ response.headers }

/-- The 204 preflight response built inline by `dispatchEvent` for
OPTIONS requests. -/
def preflightResponse (env : Env) : Resp :=
  { statusCode := 204,
    headers :=
      [("Access-Control-Allow-Origin", envOr env.corsAllowedOrigins "*"),
       ("Access-Control-Allow-Headers", envOr env.corsAllowedHeaders defaultCorsAllowedHeaders),
       ("Access-Control-Allow-Methods", envOr env.corsAllowedMethods defaultCorsAllowedMethods),
       ("Access-Control-Max-Age", envOr env.corsMaxAge "600")],
    body := .strB "" }

/-- The route resolution step of the API Gateway branch of
`dispatchEvent`: segmented routers are probed across segments, a flat
router is treated as the public segment with no middleware. -/
def resolveApiRoute (apiRoutes : ApiRoutes) (method : Option String)
    (routePattern actualPath : String) : Option RouteMatch :=
  match apiRoutes with
  | .segmented s => findRouteInSegmentsWithActualPath s method routePattern actualPath
  | .flat r =>
    match findRouteInRouterWithActualPath (some r) method routePattern actualPath with
    | some result =>
      some { handler := result.1.handler, params := result.2, segment := .public,
             middleware := [], config := result.1 }
    | none => none

/-- An abnormal dispatch outcome: a value thrown by middleware or a
handler propagating uncaught to the caller, or a modelled JavaScript
`TypeError` (reached only when an API Gateway event carries neither
`resource` nor `path` and the undefined pattern is handed to
`normalizePath`). -/
inductive Thrown where
  | resp (r : Resp)
  | typeError

/-- The string coercion JavaScript applies to a value used as an object
key (`routes.eventbridge?.[operationName]`). -/
def jsKeyString : JsVal → String
  | .str s => s
  | .num n => toString n
  | .bool b => if b then "true" else "false"
  | .null => "null"
  | .arr _ => ""
  | .obj _ => ""

/-- `dispatchEvent` from `src/dispatcher.ts`.  The `debug` logging
branches are effect-free and not embedded. -/
def dispatchEvent (rt : JsRuntime) (env : Env) (event : Event) (routes : DispatchRoutes)
    (cfg : OrchestratorConfig) : Except Thrown Resp :=
  match detectEventType event with
  | .apigateway =>
    let method := event.httpMethod.map sToLower
    let routePattern := jsOrStr event.resource event.path
    let actualPath := jsOrStr event.path event.resource
    if method = some "options" then .ok (preflightResponse env)
    else
      match routes.apigateway with
      | none =>
        .ok (applyCorsToResponse env ((cfg.responses.bind (fun r => r.notFound)).getD
          (notFoundResponse (some "No API routes configured") none)))
      | some apiRoutes =>
        match routePattern, actualPath with
        | some rp, some ap =>
          (match resolveApiRoute apiRoutes method rp ap with
          | none =>
            .ok (applyCorsToResponse env ((cfg.responses.bind (fun r => r.notFound)).getD
              (notFoundResponse (some ("Route not found: " ++ sToUpper (method.getD "") ++ " " ++ rp)) none)))
          | some routeMatch =>
            let normalized := normalizeApiGatewayEvent rt event routeMatch.segment routeMatch.params
              (cfg.autoExtractIdentity.getD false)
            if !(validateSegmentUserPool normalized routeMatch.segment cfg) then
              .ok (applyCorsToResponse env ((cfg.responses.bind (fun r => r.forbidden)).getD
                (forbiddenResponse (some "Access denied: Invalid token issuer") none)))
            else
              match (match cfg.globalMiddleware with
                     | some gmw => if gmw.length ≠ 0 then executeMiddleware gmw normalized else .ok normalized
                     | none => .ok normalized) with
              | .error thrown => .error (.resp thrown)
              | .ok afterGlobal =>
                match (if routeMatch.middleware.length ≠ 0
                       then executeMiddleware routeMatch.middleware afterGlobal
                       else .ok afterGlobal) with
                | .error thrown => .error (.resp thrown)
                | .ok afterSegment =>
                  match routeMatch.handler afterSegment with
                  | .error thrown => .error (.resp thrown)
                  | .ok handlerResponse => .ok (applyCorsToResponse env handlerResponse))
        | _, _ => .error .typeError
  | .eventbridge =>
    let operationName := event.detail.bind (fun d => jsField d "operationName")
    let ebLookup := fun (k : String) => routes.eventbridge.bind (fun r => jsLookup r k)
    let handler :=
      if truthy operationName then
        match ebLookup (jsKeyString (operationName.getD .null)) with
        | some h => some h
        | none => ebLookup "default"
      else ebLookup "default"
    match handler with
    | none => .ok { statusCode := 404, body := .strB "EventBridge handler not found" }
    | some h =>
      match h (normalizeEventBridgeEvent event) with
      | .error thrown => .error (.resp thrown)
      | .ok r => .ok r
  | .sqs =>
    let queueArn := ((event.records.getD []).head?).bind (fun r => r.eventSourceARN)
    let queueName := queueArn.map (fun a => ((sSplitOnChar ':' a).getLast?).getD "")
    let sqsLookup := fun (k : String) => routes.sqs.bind (fun r => jsLookup r k)
    let handler :=
      match queueName with
      | some q =>
        (match sqsLookup q with
         | some h => some h
         | none => sqsLookup "default")
      | none => sqsLookup "default"
    match handler with
    | none => .ok { statusCode := 404, body := .strB "SQS handler not found" }
    | some h =>
      match h (normalizeSqsEvent rt event) with
      | .error thrown => .error (.resp thrown)
      | .ok r => .ok r
  | .lambda =>
    match routes.lambda.bind (fun r => jsLookup r "default") with
    | none => .ok { statusCode := 404, body := .strB "Lambda handler not found" }
    | some h =>
      match h (normalizeLambdaEvent event) with
      | .error thrown => .error (.resp thrown)
      | .ok r => .ok r
  | .unknown =>
    .ok (match cfg.responses.bind (fun r => r.badRequest) with
      | some f => f "Unknown event type"
      | none => badRequestResponse (some "Unknown event type") none)

/-! ## Derived notions used by the theorems -/

/-- The precedence index of a segment in the fixed probe order. -/
def segIdx : RouteSegment → Nat
  | .public => 0
  | .«private» => 1
  | .backoffice => 2
  | .internal => 3

/-- The single-segment probe performed by the segment loop. -/
def matchInSegment (router : SegmentedRouter) (segment : RouteSegment) (method : Option String)
    (routePattern actualPath : String) : Option (RouteConfig × List (String × String)) :=
  findRouteInRouterWithActualPath (getRouterFromSegment (router segment)) method routePattern actualPath

/-! ## Concrete fixtures for witnesses and counterexamples -/

/-- A concrete runtime: `JSON.parse` always fails, base64 decoding is the
identity.  The fixtures below never feed data through either. -/
def rt0 : JsRuntime :=
  { jsonParse := fun _ => none, b64decode := id }

/-- An empty environment: every CORS variable takes its default. -/
def env0 : Env := {}

/-- An identity holding the cross-tenant bypass role. -/
def adminIdentity : IdentityContext :=
  { userId := some (.str "user-1"), groups := some ["PLATFORM_ADMIN"] }

/-- An identity without the bypass role. -/
def agentIdentity : IdentityContext :=
  { userId := some (.str "user-1"), groups := some ["AGENT"] }

/-- A tenant whose id is whitespace-only. -/
def blankTenant : TenantInfo :=
  { tenantId := "   ", tenantType := "ORG", userId := "user-1", countryCode := "CO" }

/-- A normalized event on the private segment with the given identity and
tenant binding. -/
def mkGuardEvent (identity : Option IdentityContext) (tenantInfo : Option TenantInfo) :
    NormalizedEvent :=
  { eventRaw := {},
    eventType := "apigateway",
    payload := {},
    params := [],
    context := { segment := .«private», identity := identity, tenantInfo := tenantInfo } }

/-- Bypass-role identity, blank tenant id. -/
def eAdminBlank : NormalizedEvent := mkGuardEvent (some adminIdentity) (some blankTenant)

/-- Bypass-role identity, no tenant bound. -/
def eAdminNoTenant : NormalizedEvent := mkGuardEvent (some adminIdentity) none

/-- Non-bypass identity, no tenant bound. -/
def eAgentNoTenant : NormalizedEvent := mkGuardEvent (some agentIdentity) none

/-- Non-bypass identity, blank tenant id. -/
def eAgentBlank : NormalizedEvent := mkGuardEvent (some agentIdentity) (some blankTenant)

/-- A handler returning a fixed marker response `A`. -/
def handlerA : Handler := fun _ => .ok { statusCode := 200, body := .strB "A" }

/-- A handler returning a fixed marker response `B`. -/
def handlerB : Handler := fun _ => .ok { statusCode := 200, body := .strB "B" }

/-- Route entry carrying `handlerA`. -/
def cfgA : RouteConfig := { handler := handlerA }

/-- Route entry carrying `handlerB`. -/
def cfgB : RouteConfig := { handler := handlerB }

/-- A segmented router registering the identical `(get, /dup)` route in
both the private and the backoffice segment. -/
def dupRouter : SegmentedRouter := fun s =>
  match s with
  | .«private» => some (.plain [("get", [("/dup", cfgA)])])
  | .backoffice => some (.plain [("get", [("/dup", cfgB)])])
  | _ => none

/-- A method table declaring a parametric pattern before a literal one
that both match the concrete path `/users/42`. -/
def literalVsParamRoutes : MethodRoutes :=
  [("/users/\x7bid\x7d", cfgB), ("/users/42", cfgA)]

/-- A router exposing `literalVsParamRoutes` under `get`. -/
def literalVsParamRouter : HttpRouter :=
  [("get", literalVsParamRoutes)]

/-- A middleware that appends its tag to the `params` object of the
event, making execution order observable. -/
def tagMw (t : String) : MiddlewareFn :=
  fun e => .ok (some { e with params := e.params ++ [(t, t)] })

/-- A handler echoing the keys of the `params` object it receives, in
order. -/
def echoHandler : Handler :=
  fun e => .ok { statusCode := 200, body := .strB (String.intercalate "," (e.params.map Prod.fst)) }

/-- A concrete HTTP GET event for `/ping`. -/
def pingEvent : Event :=
  { requestContext := some {}, httpMethod := some "GET",
    resource := some "/ping", path := some "/ping" }

/-- A segmented API router for `pingEvent`: the private segment carries
the given segment middleware tags and the matched route carries the
given route middleware tags. -/
def tagApi (segTags routeTags : List String) : ApiRoutes :=
  .segmented (fun s =>
    match s with
    | .«private» => some (.config
        [("get", [("/ping", { handler := echoHandler, middleware := some (routeTags.map tagMw) })])]
        (some (segTags.map tagMw)))
    | _ => none)

/-- Routes wrapping `tagApi`. -/
def tagRoutes (segTags routeTags : List String) : DispatchRoutes :=
  { apigateway := some (tagApi segTags routeTags) }

/-- The route match produced for `pingEvent` against `tagApi`: the
segment middleware list carries the segment tags and the matched route
entry declares the route tags as its own middleware list. -/
def tagMatch (segTags routeTags : List String) : RouteMatch :=
  { handler := echoHandler, params := [], segment := .«private»,
    middleware := segTags.map tagMw,
    config := { handler := echoHandler, middleware := some (routeTags.map tagMw) } }

/-- Configuration carrying the given global middleware tags. -/
def tagCfg (globalTags : List String) : OrchestratorConfig :=
  { globalMiddleware := some (globalTags.map tagMw) }

/-- A concrete HTTP GET event for `/sec` whose authorizer claims carry an
issuer resolving to `pool-B`. -/
def secEvent : Event :=
  { requestContext := some { authorizer := some (.obj
      [("claims", .obj
        [("sub", .str "user-1"),
         ("iss", .str "https://cognito-idp.us-east-1.amazonaws.com/pool-B")])]) },
    httpMethod := some "GET",
    resource := some "/sec", path := some "/sec" }

/-- Route entry for `/sec`. -/
def cfgSec : RouteConfig := { handler := handlerA }

/-- A segmented API router registering `/sec` in the private segment. -/
def secApi : ApiRoutes :=
  .segmented (fun s =>
    match s with
    | .«private» => some (.plain [("get", [("/sec", cfgSec)])])
    | _ => none)

/-- Routes registering `/sec` in the private segment. -/
def secRoutes : DispatchRoutes :=
  { apigateway := some secApi }

/-- The route match produced for `secEvent` against `secRoutes`. -/
def secMatch : RouteMatch :=
  { handler := cfgSec.handler, params := [], segment := .«private»,
    middleware := [], config := cfgSec }

/-- Pool expectations: the private segment expects issuer pool `pool-A`. -/
def secPools : RouteSegment → Option String :=
  fun s => match s with | .«private» => some "pool-A" | _ => none

/-- Configuration expecting issuer pool `pool-A` on the private segment. -/
def secCfg : OrchestratorConfig :=
  { userPools := some secPools }

/-- The normalized event the dispatcher builds for `pingEvent` on the
private segment with no extracted parameters. -/
def pingNormalized : NormalizedEvent :=
  normalizeApiGatewayEvent rt0 pingEvent .«private» [] false

/-- `pingNormalized` after the global tags `g1`, `g2` have been
appended. -/
def afterGlobal1 : NormalizedEvent :=
  { pingNormalized with params := [("g1", "g1"), ("g2", "g2")] }

/-- `afterGlobal1` after the segment tag `s1` has been appended. -/
def afterSegment1 : NormalizedEvent :=
  { pingNormalized with params := [("g1", "g1"), ("g2", "g2"), ("s1", "s1")] }

/-- The response `echoHandler` returns on `afterSegment1`. -/
def result1 : Resp :=
  { statusCode := 200, body := .strB "g1,g2,s1" }

/-- A concrete OPTIONS event. -/
def optionsEvent : Event :=
  { requestContext := some {}, httpMethod := some "OPTIONS", path := some "/anything" }

/-! ## Theorems -/

/-- Claim C10: for every identity whose group list is non-empty,
`hasAllGroups` with an empty required-group list returns `true`
(vacuously), while `hasAnyGroup` with an empty allowed-group list
returns `false` — the two predicates disagree on the empty query even
for the same identity. -/
theorem claim10_empty_group_queries_disagree (identity : Option IdentityContext)
    (i : IdentityContext) (gs : List String)
    (hi : identity = some i) (hg : i.groups = some gs) (hne : gs ≠ []) :
    hasAllGroups identity [] = true ∧ hasAnyGroup identity [] = false := by
  subst hi
  constructor <;> simp [hasAllGroups, hasAnyGroup, hg, hne]

/-- Witness for C10 at a concrete identity with one group. -/
theorem claim10_witness :
    hasAllGroups (some { groups := some ["Admin"] }) [] = true ∧
    hasAnyGroup (some { groups := some ["Admin"] }) [] = false :=
  claim10_empty_group_queries_disagree _ _ ["Admin"] rfl rfl (by simp)

/-- Claim C9: body parsing is total — the embedded `parseJsonBody` is a
total function (the `try`/`catch` of the source appears as the `none`
branch of the parse oracle, quantified over every possible `JSON.parse`
and base64-decode behaviour), and an absent, empty, or malformed body
yields the empty mapping. -/
theorem claim9_parse_json_body_total (rt : JsRuntime) (body : Option String) (flag : Option Bool) :
    (body = none ∨ body = some "" → parseJsonBody rt body flag = .obj []) ∧
    (∀ s, body = some s → s ≠ "" →
      rt.jsonParse (if flag.getD false then rt.b64decode s else s) = none →
      parseJsonBody rt body flag = .obj []) := by
  constructor
  · rintro (rfl | rfl) <;> simp [parseJsonBody]
  · rintro s rfl hne hp
    simp [parseJsonBody, hne, hp]

/-- Witness for C9 at a concrete malformed body. -/
theorem claim9_witness : parseJsonBody rt0 (some "not json") none = JsVal.obj [] :=
  (claim9_parse_json_body_total rt0 (some "not json") none).2 "not json" rfl (by decide) rfl

/-- Claim C8: claim-key resolution reads the `custom:`-prefixed form of
a logical key in preference to the unprefixed form when the prefixed key
is present (with a non-null value), and tenant resolution yields absent
whenever the tenant id, tenant kind, user id (including its `sub`
fallback), or country code is missing, or the tenant kind is
unrecognized. -/
theorem claim8_claim_resolution :
    (∀ (claims : JsVal) (key : String) (v : JsVal),
        jsField claims ("custom:" ++ key) = some v → v ≠ .null →
        getClaim claims key = some v) ∧
    (∀ claims : JsVal,
        (getClaim claims "tenantId" = none ∨
         getClaim claims "tenantType" = none ∨
         (getClaim claims "userId" = none ∧ jsField claims "sub" = none) ∨
         getClaim claims "countryCode" = none ∨
         isTenantType (getClaim claims "tenantType") = false) →
        tenantInfoFromClaims claims = none) := by
  constructor
  · intro claims key v h hv
    unfold getClaim jsCoalesce
    rw [h]
    cases v <;> simp_all
  · intro claims hd
    unfold tenantInfoFromClaims
    rcases hd with h | h | ⟨h1, h2⟩ | h | h
    · simp [h, truthy]
    · simp [h, truthy]
    · simp [jsOr, h1, h2, truthy]
    · simp [h, truthy]
    · by_cases hc : (!(truthy (getClaim claims "tenantId")) ||
        !(truthy (getClaim claims "tenantType")) ||
        !(truthy (jsOr (getClaim claims "userId") (jsField claims "sub"))) ||
        !(truthy (getClaim claims "countryCode"))) = true
      · simp [hc]
      · simp [hc, h]

/-- Witness for C8: the prefixed key wins over the unprefixed one; a
claims object missing the tenant id resolves to absent. -/
theorem claim8_witness :
    getClaim (JsVal.obj [("custom:tenantId", .str "A"), ("tenantId", .str "B")]) "tenantId" =
      some (.str "A") ∧
    tenantInfoFromClaims (JsVal.obj [("custom:tenantType", .str "ORG")]) = none :=
  ⟨claim8_claim_resolution.1 _ "tenantId" (.str "A") rfl (by nofun),
   claim8_claim_resolution.2 _ (Or.inl rfl)⟩

/-- Claim C3 counterexample: an identity holding the cross-tenant bypass
role passes the tenant guard even though its bound tenant id is
whitespace-only (it trims to the empty string), so a blank-id tenant is
not "always rejected" as the claim states. -/
theorem claim3_counterexample :
    eAdminBlank.context.tenantInfo.map (fun t => sTrim t.tenantId) = some "" ∧
    tenantGuard eAdminBlank = .ok (some eAdminBlank) :=
  ⟨rfl, rfl⟩

/-- Claim C3 (amended): a bypass-role identity always proceeds
(regardless of any bound tenant); for a non-bypass identity, a missing
tenant or a tenant whose id is empty or whitespace-only is rejected with
the `TENANT_CONTEXT_MISSING` discriminator on a 403 response. -/
theorem claim3_tenant_guard (e : NormalizedEvent) :
    (hasAnyGroup e.context.identity CROSS_TENANT_ROLES = true → tenantGuard e = .ok (some e)) ∧
    (hasAnyGroup e.context.identity CROSS_TENANT_ROLES = false → e.context.tenantInfo = none →
      tenantGuard e = .error tenantMissingResponse) ∧
    (∀ t, hasAnyGroup e.context.identity CROSS_TENANT_ROLES = false →
      e.context.tenantInfo = some t → sTrim t.tenantId = "" →
      tenantGuard e = .error tenantMissingResponse) ∧
    tenantMissingResponse.statusCode = 403 ∧
    bodyCode tenantMissingResponse = some "TENANT_CONTEXT_MISSING" := by
  refine ⟨?_, ?_, ?_, rfl, rfl⟩
  · intro h
    simp [tenantGuard, h]
  · intro h ht
    simp [tenantGuard, h, ht]
  · intro t h ht htrim
    simp [tenantGuard, h, ht, htrim]

/-- Matching a parameter-free segment list against itself succeeds with
no captures. -/
theorem matchSegs_self (l : List String) (h : ∀ s ∈ l, isParamSeg s = false) :
    matchSegs l l = some [] := by
  induction l with
  | nil => rfl
  | cons a rest ih =>
    have ha := h a (by simp)
    simp only [matchSegs, ha, Bool.false_eq_true, if_false, if_pos rfl]
    exact ih (fun s hs => h s (by simp [hs]))

/-- A parameter-free pattern matches itself exactly, capturing nothing. -/
theorem matchPath_self (p : String) (h : hasPathParameters p = false) :
    matchPath p p = some [] := by
  unfold matchPath
  apply matchSegs_self
  intro s hs
  unfold hasPathParameters at h
  rw [List.any_eq_false] at h
  simpa using h s hs

/-- Claim C5: within one segment and one verb, when both a literal
pattern (equal to the concrete normalized path) and a parametric pattern
would match the same concrete path, the exact literal lookup is tried
before the parametric scan, so the literal entry is resolved — even when
the parametric pattern is declared first. -/
theorem claim5_literal_before_parametric (router : HttpRouter) (m : String)
    (methodRoutes : MethodRoutes) (p parPat : String) (litCfg parCfg : RouteConfig)
    (hm : jsLookup router m = some methodRoutes)
    (hlit : jsLookup methodRoutes (normalizePath p) = some litCfg)
    (hnp : hasPathParameters (normalizePath p) = false)
    (hparMem : (parPat, parCfg) ∈ methodRoutes)
    (hparam : hasPathParameters parPat = true)
    (hparMatch : (matchPath parPat (normalizePath p)).isSome = true) :
    findRouteInRouterWithActualPath (some router) (some m) p p = some (litCfg, []) := by
  unfold findRouteInRouterWithActualPath
  simp [hm, hlit, matchPath_self _ hnp]

/-- Witness for C5: the parametric pattern is declared first, both match
the concrete path `/users/42`, and the literal entry wins. -/
theorem claim5_witness :
    findRouteInRouterWithActualPath (some literalVsParamRouter) (some "get")
      "/users/42" "/users/42" = some (cfgA, []) :=
  claim5_literal_before_parametric literalVsParamRouter "get" literalVsParamRoutes
    "/users/42" "/users/\x7bid\x7d" cfgA cfgB rfl rfl rfl (by simp [literalVsParamRoutes]) rfl rfl

/-- Claim C4: in a segmented route table, the segments are probed in the
fixed precedence order public, private, backoffice, internal; the first
segment containing any match for the verb and path supplies the resolved
entry, and the search stops there — in particular, a (verb, pattern)
registered identically in two segments always resolves to the
earlier-precedence segment. -/
theorem claim4_segment_precedence (router : SegmentedRouter) (method : Option String)
    (routePattern actualPath : String) (s₁ : RouteSegment)
    (res : RouteConfig × List (String × String))
    (h1 : matchInSegment router s₁ method routePattern actualPath = some res)
    (h2 : ∀ s, segIdx s < segIdx s₁ →
      matchInSegment router s method routePattern actualPath = none) :
    findRouteInSegmentsWithActualPath router method routePattern actualPath =
      some { handler := res.1.handler, params := res.2, segment := s₁,
             middleware := getMiddlewareFromSegment (router s₁), config := res.1 } := by
  unfold matchInSegment at h1 h2
  cases s₁ with
  | public =>
    simp [findRouteInSegmentsWithActualPath, segmentsOrder, findRouteInSegmentsGo, h1]
  | «private» =>
    have hp := h2 .public (by decide)
    simp [findRouteInSegmentsWithActualPath, segmentsOrder, findRouteInSegmentsGo, h1, hp]
  | backoffice =>
    have hp := h2 .public (by decide)
    have hq := h2 .«private» (by decide)
    simp [findRouteInSegmentsWithActualPath, segmentsOrder, findRouteInSegmentsGo, h1, hp, hq]
  | internal =>
    have hp := h2 .public (by decide)
    have hq := h2 .«private» (by decide)
    have hr := h2 .backoffice (by decide)
    simp [findRouteInSegmentsWithActualPath, segmentsOrder, findRouteInSegmentsGo, h1, hp, hq, hr]

/-- Witness for C4: `(get, /dup)` is registered in both the private and
the backoffice segment; resolution picks the private entry although the
backoffice segment would also match. -/
theorem claim4_witness :
    matchInSegment dupRouter .backoffice (some "get") "/dup" "/dup" = some (cfgB, []) ∧
    findRouteInSegmentsWithActualPath dupRouter (some "get") "/dup" "/dup" =
      some { handler := cfgA.handler, params := [], segment := .«private»,
             middleware := [], config := cfgA } :=
  ⟨rfl,
   claim4_segment_precedence dupRouter (some "get") "/dup" "/dup" .«private» (cfgA, []) rfl
     (fun s hs => by
       cases s with
       | public => rfl
       | «private» => simp [segIdx] at hs
       | backoffice => simp [segIdx] at hs
       | internal => simp [segIdx] at hs)⟩

/-- Witness for the amended C3 at three concrete guard inputs. -/
theorem claim3_witness :
    tenantGuard eAdminNoTenant = .ok (some eAdminNoTenant) ∧
    tenantGuard eAgentNoTenant = .error tenantMissingResponse ∧
    tenantGuard eAgentBlank = .error tenantMissingResponse :=
  ⟨(claim3_tenant_guard eAdminNoTenant).1 rfl,
   (claim3_tenant_guard eAgentNoTenant).2.1 rfl rfl,
   (claim3_tenant_guard eAgentBlank).2.2.1 blankTenant rfl rfl rfl⟩

/-- Claim C7: every event detected as an HTTP trigger whose method is
OPTIONS is answered with the 204 preflight response carrying the four
CORS headers, for every route table and configuration — so no route
lookup, middleware, or handler runs, even when no route matches the
path. -/
theorem claim7_options_preflight (rt : JsRuntime) (env : Env) (event : Event)
    (routes : DispatchRoutes) (cfg : OrchestratorConfig)
    (hdet : detectEventType event = .apigateway)
    (hopt : event.httpMethod.map sToLower = some "options") :
    dispatchEvent rt env event routes cfg = .ok (preflightResponse env) ∧
    (preflightResponse env).statusCode = 204 ∧
    (preflightResponse env).headers.map Prod.fst =
      ["Access-Control-Allow-Origin", "Access-Control-Allow-Headers",
       "Access-Control-Allow-Methods", "Access-Control-Max-Age"] := by
  refine ⟨?_, rfl, rfl⟩
  unfold dispatchEvent
  rw [hdet]
  simp [hopt]

/-- Witness for C7 at a concrete OPTIONS event against an empty route
table. -/
theorem claim7_witness :
    dispatchEvent rt0 env0 optionsEvent {} {} = .ok (preflightResponse env0) :=
  (claim7_options_preflight rt0 env0 optionsEvent {} {} rfl rfl).1

/-- Claim C2: for an HTTP event resolving to a route in a non-public
segment with a configured (non-empty) expected issuer pool, if the
extracted identity is absent, has no issuer, or the trailing path
segment of its issuer differs from the expected pool id, then issuer
validation returns false (it is a total function that never throws) and
the dispatch returns the forbidden result — independently of every
handler and middleware in the table, so the handler is invoked zero
times. -/
theorem claim2_issuer_mismatch_forbidden (rt : JsRuntime) (env : Env) (event : Event)
    (routes : DispatchRoutes) (cfg : OrchestratorConfig) (api : ApiRoutes) (rm : RouteMatch)
    (rp ap : String) (pools : RouteSegment → Option String) (pid : String)
    (hdet : detectEventType event = .apigateway)
    (hopt : event.httpMethod.map sToLower ≠ some "options")
    (hapi : routes.apigateway = some api)
    (hrp : jsOrStr event.resource event.path = some rp)
    (hap : jsOrStr event.path event.resource = some ap)
    (hmatch : resolveApiRoute api (event.httpMethod.map sToLower) rp ap = some rm)
    (hseg : rm.segment ≠ .public)
    (hpools : cfg.userPools = some pools)
    (hpid : pools rm.segment = some pid)
    (hpne : pid ≠ "")
    (hiss : ∀ i, extractIdentity rt event (cfg.autoExtractIdentity.getD false) = some i →
      extractUserPoolId i.issuer ≠ some pid) :
    validateIssuer (extractIdentity rt event (cfg.autoExtractIdentity.getD false)) pid = false ∧
    dispatchEvent rt env event routes cfg =
      .ok (applyCorsToResponse env ((cfg.responses.bind (fun r => r.forbidden)).getD
        (forbiddenResponse (some "Access denied: Invalid token issuer") none))) := by
  have hvi : validateIssuer (extractIdentity rt event (cfg.autoExtractIdentity.getD false)) pid
      = false := by
    cases hI : extractIdentity rt event (cfg.autoExtractIdentity.getD false) with
    | none => rfl
    | some i =>
      unfold validateIssuer
      by_cases hs : strTruthy i.issuer = true
      · simp [hs, hiss i hI]
      · simp [hs]
  refine ⟨hvi, ?_⟩
  have hvsp : validateSegmentUserPool
      (normalizeApiGatewayEvent rt event rm.segment rm.params (cfg.autoExtractIdentity.getD false))
      rm.segment cfg = false := by
    unfold validateSegmentUserPool
    rw [if_neg hseg, hpools]
    simp [hpid, hpne, normalizeApiGatewayEvent, hvi]
  unfold dispatchEvent
  rw [hdet]
  simp only [hopt, hapi, hrp, hap, if_false]
  simp [hopt, hmatch, hvsp]

/-- Witness for C2 at a concrete request to the private segment
expecting `pool-A` whose token issuer resolves to `pool-B`. -/
theorem claim2_witness :
    dispatchEvent rt0 env0 secEvent secRoutes secCfg =
      .ok (applyCorsToResponse env0
        (forbiddenResponse (some "Access denied: Invalid token issuer") none)) :=
  (claim2_issuer_mismatch_forbidden rt0 env0 secEvent secRoutes secCfg secApi secMatch
    "/sec" "/sec" secPools "pool-A" rfl (by decide) rfl rfl rfl rfl (by decide) rfl rfl
    (by decide)
    (fun i hi => by
      have hb : (extractIdentity rt0 secEvent (secCfg.autoExtractIdentity.getD false)).bind
          (fun j => extractUserPoolId j.issuer) = some "pool-B" := rfl
      rw [hi] at hb
      simp only [Option.some_bind] at hb
      simp [hb])).2

/-- Claim C1 (amended): every HTTP dispatch that reaches the middleware
stage — detected as HTTP, not an OPTIONS preflight, route resolved, and
issuer validation passed — applies the configured global middleware
list (a sequential left fold) to the normalized event, then the matched
segment middleware list, and only then invokes the route handler on the
resulting event, returning its CORS-decorated response.  The middleware
list declared on the matched route entry itself (`rm.config.middleware`,
arbitrary here) contributes nowhere. -/
theorem claim1_middleware_order (rt : JsRuntime) (env : Env) (event : Event)
    (routes : DispatchRoutes) (cfg : OrchestratorConfig) (api : ApiRoutes) (rm : RouteMatch)
    (rp ap : String) (afterGlobal afterSegment : NormalizedEvent) (result : Resp)
    (hdet : detectEventType event = .apigateway)
    (hopt : event.httpMethod.map sToLower ≠ some "options")
    (hapi : routes.apigateway = some api)
    (hrp : jsOrStr event.resource event.path = some rp)
    (hap : jsOrStr event.path event.resource = some ap)
    (hmatch : resolveApiRoute api (event.httpMethod.map sToLower) rp ap = some rm)
    (hval : validateSegmentUserPool
      (normalizeApiGatewayEvent rt event rm.segment rm.params (cfg.autoExtractIdentity.getD false))
      rm.segment cfg = true)
    (hglob : executeMiddleware (cfg.globalMiddleware.getD [])
      (normalizeApiGatewayEvent rt event rm.segment rm.params (cfg.autoExtractIdentity.getD false))
      = .ok afterGlobal)
    (hsegm : executeMiddleware rm.middleware afterGlobal = .ok afterSegment)
    (hhandler : rm.handler afterSegment = .ok result) :
    dispatchEvent rt env event routes cfg = .ok (applyCorsToResponse env result) := by
  unfold dispatchEvent
  rw [hdet]
  simp only [hopt, hapi, hrp, hap, if_false]
  simp [hopt, hmatch, hval]
  cases hG : cfg.globalMiddleware with
  | none =>
    rw [hG] at hglob
    simp only [Option.getD_none, executeMiddleware, Except.ok.injEq] at hglob
    subst hglob
    cases hMl : rm.middleware with
    | nil =>
      rw [hMl] at hsegm
      simp only [executeMiddleware, Except.ok.injEq] at hsegm
      subst hsegm
      simp [hhandler]
    | cons m ms =>
      rw [hMl] at hsegm
      simp [hsegm, hhandler]
  | some l =>
    rw [hG] at hglob
    simp only [Option.getD_some] at hglob
    cases l with
    | nil =>
      simp only [executeMiddleware, Except.ok.injEq] at hglob
      subst hglob
      cases hMl : rm.middleware with
      | nil =>
        rw [hMl] at hsegm
        simp only [executeMiddleware, Except.ok.injEq] at hsegm
        subst hsegm
        simp [hhandler]
      | cons m ms =>
        rw [hMl] at hsegm
        simp [hsegm, hhandler]
    | cons g gl =>
      cases hMl : rm.middleware with
      | nil =>
        rw [hMl] at hsegm
        simp only [executeMiddleware, Except.ok.injEq] at hsegm
        subst hsegm
        simp [hglob, hhandler]
      | cons m ms =>
        rw [hMl] at hsegm
        simp [hglob, hsegm, hhandler]

/-- Witness for the amended C1: a concrete dispatch with global tags
`g1`, `g2`, segment tag `s1`, and route tag `r1`; the handler runs on
the event carrying exactly `g1,g2,s1`. -/
theorem claim1_witness :
    dispatchEvent rt0 env0 pingEvent (tagRoutes ["s1"] ["r1"]) (tagCfg ["g1", "g2"]) =
      .ok (applyCorsToResponse env0 result1) :=
  claim1_middleware_order rt0 env0 pingEvent (tagRoutes ["s1"] ["r1"]) (tagCfg ["g1", "g2"])
    (tagApi ["s1"] ["r1"]) (tagMatch ["s1"] ["r1"]) "/ping" "/ping"
    afterGlobal1 afterSegment1 result1
    rfl (by decide) rfl rfl rfl rfl rfl rfl rfl rfl

/-- Claim C1 counterexample: with global tag `g`, segment tag `s`, and
route tag `r`, the handler observes `g,s` — not the `g,s,r` that the
claimed global-segment-route order would produce — so the route
middleware list is not applied. -/
theorem claim1_counterexample :
    dispatchEvent rt0 env0 pingEvent (tagRoutes ["s"] ["r"]) (tagCfg ["g"]) =
      .ok (applyCorsToResponse env0 { statusCode := 200, body := .strB "g,s" }) ∧
    ("g,s" : String) ≠ "g,s,r" := by
  constructor
  · rfl
  · decide

end SEO
